import Mathlib

/-!
Verification of the IPL prediction bot against its design notes.

The development shallowly embeds the two core pieces of the repository:

* the process supervisor of `bot_manager.py` (`run_bot`), modelled as a
  recursive function over the sequence of child-process outcomes supplied by
  the environment, producing the visible sequence of supervisor events
  (cooldown sleeps, spawn attempts, terminal exits);
* the vote/score/leaderboard logic of `prediction_bot.py`
  (`handle_poll_answer`, `score_match`, `leaderboard`,
  `scheduled_poll_callback`) over a typed snapshot of the Predictions table.

The external side effects that do not influence the control decisions under
study (log lines, webhook-deletion sleeps inside a restart, the chat
transport) are not part of the state; every decision that does influence the
durable state or the counters is translated from the Python source.
-/

/-! ### Process supervisor (`bot_manager.py`) -/

/-- Constant `max_restarts` from `bot_manager.py`. -/
def max_restarts : Nat := 10

/-- Constant `max_consecutive_errors` from `bot_manager.py`. -/
def max_consecutive_errors : Nat := 3

/-- Constant `error_cooldown` (seconds) from `bot_manager.py`. -/
def error_cooldown : Nat := 60

/-- One lifetime of the spawned child process, as observed by the monitoring
loop of `run_bot`: either the conflict marker was seen on stderr (the
`webhook_error_detected` branch; the flag records whether the subsequent
webhook cleanup succeeded, which only changes the sleep length, not the
counters), or the child exited by itself with the given return code after
running for `runTime` seconds. -/
inductive ChildOutcome where
  | conflict (cleanupOk : Bool)
  | exited (returncode : Int) (runTime : Nat)
deriving DecidableEq, Repr

/-- Observable supervisor events emitted by `run_bot`: the 60-second
consecutive-error cooldown sleep, a spawn attempt carrying the counter values
in force when `subprocess.Popen` runs, the "Reached maximum restarts" return,
the clean-exit return, and a marker for the model running out of supplied
outcomes (the child is still running when the trace ends). -/
inductive SupEvent where
  | cooldown (secs : Nat)
  | spawn (restartCount consecutiveErrors : Nat)
  | exhausted
  | cleanExit
  | ranOut
deriving DecidableEq, Repr

/-- Shallow embedding of `run_bot(restart_count, consecutive_errors)` from
`bot_manager.py`.  Guard order is the source's: the `restart_count >=
max_restarts` check (line 46) precedes the consecutive-error cooldown
(lines 51-54), which sleeps and resets the local `consecutive_errors` to 0
before the spawn.  A conflict restarts with both counters incremented
(lines 136, 140, identical for both cleanup branches); a nonzero exit
restarts with `consecutive_errors + 1` when the run time was under 10 seconds
(line 167) and with 0 otherwise (line 170); a zero exit returns (line 172). -/
def run_bot : Nat → Nat → List ChildOutcome → List SupEvent
  | rc, ce, [] =>
    if max_restarts ≤ rc then [.exhausted]
    else if max_consecutive_errors ≤ ce then
      [.cooldown error_cooldown, .spawn rc 0, .ranOut]
    else [.spawn rc ce, .ranOut]
  | rc, ce, o :: rest =>
    if max_restarts ≤ rc then [.exhausted]
    else
      let pre : List SupEvent :=
        if max_consecutive_errors ≤ ce then [.cooldown error_cooldown] else []
      let ce' := if max_consecutive_errors ≤ ce then 0 else ce
      pre ++ .spawn rc ce' ::
        (match o with
         | .conflict _ => run_bot (rc + 1) (ce' + 1) rest
         | .exited code t =>
           if code ≠ 0 then
             if t < 10 then run_bot (rc + 1) (ce' + 1) rest
             else run_bot (rc + 1) 0 rest
           else [.cleanExit])

/-! ### Vote reconciliation (`prediction_bot.py`, `handle_poll_answer`) -/

/-- One entry of the schedule mapping built by `load_schedule_mapping`
(only the fields the verified operations read are kept live; the remaining
columns are opaque strings carried unchanged). -/
structure MatchInfo where
  teams : String
  venue : String
deriving DecidableEq, Repr

/-- One row of the Predictions sheet, after the `pd.to_numeric` coercions the
handlers apply to `MatchNo` and `Correct` (the sheet itself stores strings;
every code path under study coerces these two columns to integers before
using them, so the typed row is the faithful state). -/
structure PredRow where
  matchNo : Nat
  matchName : String
  username : String
  prediction : String
  correct : Nat
deriving DecidableEq, Repr

/-- ASCII lower-casing of one character, as Python `str.lower` acts on the
ASCII names in play. -/
def lowerChar (c : Char) : Char :=
  if 65 ≤ c.toNat ∧ c.toNat ≤ 90 then Char.ofNat (c.toNat + 32) else c

/-- The whitespace set Python `str.strip` removes (ASCII part). -/
def isPySpace (c : Char) : Bool :=
  c == ' ' || c == '\t' || c == '\n' || c == '\r' || c == '\x0b' || c == '\x0c'

/-- Python `s.lower()`. -/
def pyLower (s : String) : String := ⟨s.data.map lowerChar⟩

/-- Python `s.strip()`: drop leading and trailing whitespace. -/
def pyStrip (s : String) : String :=
  ⟨((s.data.dropWhile isPySpace).reverse.dropWhile isPySpace).reverse⟩

/-- Does `p` occur at the head of `l`? -/
def leadsWith : List Char → List Char → Bool
  | [], _ => true
  | _ :: _, [] => false
  | p :: ps, c :: cs => p == c && leadsWith ps cs

/-- Worker for `pySplit`; the fuel argument only makes the left-to-right,
non-overlapping scan structurally recursive and is always started above the
input length, so the fuel-exhausted arm is never reached. -/
def splitCharsAux (sep : List Char) : Nat → List Char → List Char → List (List Char)
  | 0, acc, l => [acc.reverse ++ l]
  | _ + 1, acc, [] => [acc.reverse]
  | fuel + 1, acc, c :: cs =>
    if leadsWith sep (c :: cs) then
      acc.reverse :: splitCharsAux sep fuel [] (List.drop (sep.length - 1) cs)
    else
      splitCharsAux sep fuel (c :: acc) cs

/-- Python `s.split(sep)` for a non-empty separator: non-overlapping
left-to-right splitting, `[""]` on the empty string, empty final token when
the string ends with the separator. -/
def pySplit (s sep : String) : List String :=
  (splitCharsAux sep.data (s.data.length + 1) [] s.data).map (fun l => ⟨l⟩)

/-- Python `username.strip().lower()`, the case normalization both sides of
every username comparison in `handle_poll_answer` go through. -/
def normUser (s : String) : String := pyLower (pyStrip s)

/-- The row mask `(df["MatchNo"] == match_no) &
(df["Username"].str.strip().str.lower() == username.strip().lower())`. -/
def rowMask (matchNo : Nat) (username : String) (r : PredRow) : Bool :=
  r.matchNo == matchNo && normUser r.username == normUser username

/-- Python `teams.split(" vs ")`. -/
def splitTeams (teams : String) : List String := pySplit teams " vs "

/-- Outcome of one `handle_poll_answer` run, labelling the early returns of
the source: unknown poll id (line 437), match number absent from the schedule
(line 446), retraction with nothing to remove (lines 456, 471), option index
out of range (line 480), and the three mutating outcomes. -/
inductive VoteResult where
  | ignoredUnknownPoll
  | ignoredUnknownMatch
  | ignoredNothingToRetract
  | ignoredInvalidOption
  | retracted
  | recorded
  | updated
deriving DecidableEq, Repr

/-- Does a `VoteResult` belong to the Ignored family? -/
def VoteResult.isIgnored : VoteResult → Bool
  | .ignoredUnknownPoll => true
  | .ignoredUnknownMatch => true
  | .ignoredNothingToRetract => true
  | .ignoredInvalidOption => true
  | _ => false

/-- Shallow embedding of `handle_poll_answer` (lines 408-542).  The poll map
and the schedule are association lists (the source builds dicts keyed by the
unique poll id / match number).  The second component is the write issued to
the Predictions store: `some t` for a `save_predictions_df` call replacing
the table with `t`, `none` when the handler returns without writing.

Branch order follows the source: poll-map lookup, schedule lookup, the
empty-`option_ids` retraction path (with its empty-sheet early return at
line 456), then the option-index bound check, then insert-or-update keyed by
`rowMask`.  An insert appends a row with `Correct = 0` (lines 513-523); an
update rewrites `Prediction` and resets `Correct` to 0 on every masked row
(lines 530-531). -/
def handle_poll_answer (pollMap : List (String × Nat))
    (schedule : List (Nat × MatchInfo)) (preds : List PredRow)
    (pollId : String) (username : String) (optionIds : List Nat) :
    VoteResult × Option (List PredRow) :=
  match List.lookup pollId pollMap with
  | none => (.ignoredUnknownPoll, none)
  | some matchNo =>
    match List.lookup matchNo schedule with
    | none => (.ignoredUnknownMatch, none)
    | some matchInfo =>
      match optionIds with
      | [] =>
        if preds.isEmpty then (.ignoredNothingToRetract, none)
        else if preds.any (rowMask matchNo username) then
          (.retracted, some (preds.filter (fun r => !(rowMask matchNo username r))))
        else (.ignoredNothingToRetract, none)
      | chosen :: _ =>
        let options := splitTeams matchInfo.teams
        if options.length ≤ chosen then (.ignoredInvalidOption, none)
        else
          let chosenTeam := pyStrip (options.getD chosen "")
          if preds.any (rowMask matchNo username) then
            (.updated, some (preds.map (fun r =>
              if rowMask matchNo username r then
                { r with prediction := chosenTeam, correct := 0 }
              else r)))
          else
            (.recorded, some (preds ++
              [{ matchNo := matchNo, matchName := matchInfo.teams,
                 username := username, prediction := chosenTeam, correct := 0 }]))

/-- The durable Predictions table after one `handle_poll_answer` run: the
written table when a write happened, the unchanged snapshot otherwise. -/
def tableAfter (pollMap : List (String × Nat)) (schedule : List (Nat × MatchInfo))
    (preds : List PredRow) (pollId : String) (username : String)
    (optionIds : List Nat) : List PredRow :=
  ((handle_poll_answer pollMap schedule preds pollId username optionIds).2).getD preds

/-- The key-uniqueness invariant of the Predictions table: no two rows share
the pair (match number, case-normalized username). -/
def atMostOnePerKey (preds : List PredRow) : Prop :=
  preds.Pairwise (fun a b =>
    ¬(a.matchNo = b.matchNo ∧ normUser a.username = normUser b.username))

/-! ### Scorer (`prediction_bot.py`, `score_match`) -/

/-- Outcome of one `/score` run, labelling the early replies of the source:
match number absent from the schedule (line 583), match number above the
fixed teams-not-yet-decided threshold 70 (line 587), winner name matching
neither team case-insensitively (line 593), empty Predictions table
(line 605), no row for this match (line 620); `scored` carries the
standardized winner name and the table written back. -/
inductive ScoreResult where
  | unknownMatch
  | aboveThreshold
  | invalidWinner
  | emptyTable
  | noRowsForMatch
  | scored (winner : String) (table : List PredRow)
deriving DecidableEq, Repr

/-- Shallow embedding of `score_match` (lines 544-647), after argument
parsing: the declared winner is validated case-insensitively against
`[team.strip() for team in Teams.split(" vs ")]` (line 592), standardized to
the schedule's casing (line 597), and then every row of this match gets
`Correct = 1` iff `str(prediction).strip().lower() == winner.lower()`
(lines 626-628) while rows of other matches are mapped through unchanged. -/
def score_match (schedule : List (Nat × MatchInfo)) (matchNo : Nat)
    (winner : String) (preds : List PredRow) : ScoreResult :=
  match List.lookup matchNo schedule with
  | none => .unknownMatch
  | some mi =>
    if 70 < matchNo then .aboveThreshold
    else
      let teams := (splitTeams mi.teams).map pyStrip
      if !((teams.map pyLower).contains (pyLower winner)) then .invalidWinner
      else
        let winner' := if pyLower winner == pyLower (teams.getD 0 "")
          then teams.getD 0 "" else teams.getD 1 ""
        if preds.isEmpty then .emptyTable
        else if !(preds.any (fun r => r.matchNo == matchNo)) then .noRowsForMatch
        else .scored winner' (preds.map (fun r =>
          if r.matchNo == matchNo then
            { r with correct :=
                if pyLower (pyStrip r.prediction) == pyLower winner' then 1 else 0 }
          else r))

/-- Pointwise relation between the table before and after a successful
scoring of `matchNo` with standardized winner `w`: a row of another match is
returned verbatim (all fields, whatever its prediction), a row of this match
has exactly its `Correct` flag rewritten. -/
def scoreFrame (matchNo : Nat) (w : String) (old new : PredRow) : Prop :=
  (old.matchNo ≠ matchNo → new = old) ∧
  (old.matchNo = matchNo →
    new = { old with correct :=
      (if pyLower (pyStrip old.prediction) == pyLower w then 1 else 0) })

/-! ### Scheduled poll job (`prediction_bot.py`, `scheduled_poll_callback`) -/

/-- Python `needle in haystack` on strings: substring containment. -/
def strContains (s pat : String) : Bool :=
  containsAux pat.data s.data
where
  /-- Scan every suffix of the haystack for the pattern at its head. -/
  containsAux (pat : List Char) : List Char → Bool
    | [] => leadsWith pat []
    | c :: cs => leadsWith pat (c :: cs) || containsAux pat cs

/-- The placeholder test of `scheduled_poll_callback` (line 306) and
`startpoll` (line 375): the Teams field mentions an undecided playoff slot. -/
def undecidedMatch (teams : String) : Bool :=
  strContains teams "Qualifier" || strContains teams "Eliminator"
    || strContains teams "Final"

/-- What one firing of the scheduled poll job does, as visible at the chat
and store boundaries: send the informational placeholder message (line 307,
then return before any poll is created), bail out on a team string that does
not split into exactly two options (line 314), or send the poll and append
its id to the poll map (lines 320-333). -/
inductive PollJobAction where
  | infoPlaceholder
  | skipBadFormat
  | sendPollAndRecord (options : List String)
deriving DecidableEq, Repr

/-- Shallow embedding of the decision logic of `scheduled_poll_callback`
(lines 294-344). -/
def scheduled_poll_callback (mi : MatchInfo) : PollJobAction :=
  if undecidedMatch mi.teams then .infoPlaceholder
  else
    let options := splitTeams mi.teams
    if options.length ≠ 2 then .skipBadFormat
    else .sendPollAndRecord options

/-- The PollMap store after one job firing: `save_poll_id` appends one
`(poll_id, match_no)` row only on the poll-sending action. -/
def pollMapAfter (pollMap : List (String × Nat)) (newPollId : String)
    (matchNo : Nat) : PollJobAction → List (String × Nat)
  | .sendPollAndRecord _ => pollMap ++ [(newPollId, matchNo)]
  | _ => pollMap

/-! ### Startup configuration (`prediction_bot.py`, module import and `main`) -/

/-- The process environment, restricted to the four settings the claim is
about: `BOT_TOKEN`, `GROUP_CHAT_ID`, `PREDICTIONS_SHEET_ID`,
`POLL_MAP_SHEET_ID` (each `none` when the variable is unset). -/
structure Env where
  botToken : Option String
  groupChatId : Option String
  predictionsSheetId : Option String
  pollMapSheetId : Option String
deriving DecidableEq, Repr

/-- Python `int(s)` on a decimal string: strips surrounding whitespace,
accepts one optional sign followed by at least one digit, returns `none`
where CPython raises `ValueError` (digit-group underscores are not exercised
by the inputs in play). -/
def pyInt (s : String) : Option Int :=
  let t := (pyStrip s).data
  let signDigits : Int × List Char :=
    match t with
    | '-' :: rest => (-1, rest)
    | '+' :: rest => (1, rest)
    | l => (1, l)
  if signDigits.2.isEmpty then none
  else if signDigits.2.all Char.isDigit then
    some (signDigits.1 *
      Int.ofNat (signDigits.2.foldl (fun acc c => acc * 10 + (c.toNat - 48)) 0))
  else none

/-- The configuration values module import leaves behind. -/
structure BotConfig where
  botToken : Option String
  groupChatId : Int
  predictionsSheetId : Option String
  pollMapSheetId : Option String
deriving DecidableEq, Repr

/-- Import-time evaluation of the configuration block (`prediction_bot.py`
lines 31-34).  `GROUP_CHAT_ID` alone is forced through `int(...)`, so its
absence (or a non-numeric value) raises an uncaught exception and the
process exits non-zero (modelled as `Except.error 1`).  `BOT_TOKEN`,
`PREDICTIONS_SHEET_ID` and `POLL_MAP_SHEET_ID` are read with
`os.environ.get` and stored unchecked, possibly as `None`; no later code in
this repository validates them at startup (`main`'s own failure paths at
lines 780, 801, 814 `return` normally, exit code 0). -/
def loadConfig (env : Env) : Except Nat BotConfig :=
  match env.groupChatId with
  | none => .error 1
  | some s =>
    match pyInt s with
    | none => .error 1
    | some n =>
      .ok { botToken := env.botToken, groupChatId := n,
            predictionsSheetId := env.predictionsSheetId,
            pollMapSheetId := env.pollMapSheetId }

/-- An environment with the predictions store identifier missing and the
other three settings present. -/
def envNoPredictionsId : Env :=
  { botToken := some "123:abc", groupChatId := some "42",
    predictionsSheetId := none, pollMapSheetId := some "pm-sheet" }

/-! ### Leaderboard (`prediction_bot.py`, `leaderboard`) -/

/-- Lexicographic (code-point) strict order on character lists: how Python
compares the username strings pandas sorts group keys by. -/
def charListLt : List Char → List Char → Bool
  | [], [] => false
  | [], _ :: _ => true
  | _ :: _, [] => false
  | a :: as, b :: bs => decide (a < b) || (a == b && charListLt as bs)

/-- Non-strict version of `charListLt` on strings, used as the comparator of
the group-key sort. -/
def strKeyLe (a b : String) : Prop :=
  charListLt a.data b.data = true ∨ a = b

instance : DecidableRel strKeyLe := fun a b => by
  unfold strKeyLe
  infer_instance

/-- The distinct usernames of the scan in first-seen order (the group keys
pandas derives before sorting them). -/
def dedupFirst : List String → List String
  | [] => []
  | a :: rest => a :: (dedupFirst rest).filter (fun b => b != a)

/-- The groupwise sum `df.groupby("Username")["Correct"].sum()` for one
username: total of `Correct` over the rows carrying exactly that username
(pandas groups by the exact string). -/
def userSum (rows : List PredRow) (u : String) : Nat :=
  (rows.filter (fun r => r.username == u)).foldl (fun acc r => acc + r.correct) 0

/-- Pandas `df.groupby("Username")["Correct"].sum().reset_index()`: one row per
distinct username, in ascending username order (pandas `groupby` sorts its
group keys by default). -/
def groupbyUserSum (rows : List PredRow) : List (String × Nat) :=
  (List.insertionSort strKeyLe (dedupFirst (rows.map (fun r => r.username)))).map
    (fun u => (u, userSum rows u))

/-- Pandas `.sort_values("Correct", ascending=False)`: `nargsort` computes
the ascending argsort and reverses it wholesale for `ascending=False`.  The
default `kind="quicksort"` is numpy's introsort, which is unstable above the
small-array threshold where it degenerates to insertion sort; this
executable model fixes the stable insertion-sort behaviour of that
small-array regime, which every concrete table evaluated here lives in.
Properties claimed for arbitrary snapshots are therefore stated over any
ascending arrangement of the grouped sums rather than over this model, so
they hold whatever tie order the unstable sort produces. -/
def sortScoreDesc (l : List (String × Nat)) : List (String × Nat) :=
  (List.insertionSort (fun a b : String × Nat => a.2 ≤ b.2) l).reverse

/-- The `(username, score)` sequence the `/leaderboard` handler iterates, in
iteration order (lines 678-683 of `prediction_bot.py`). -/
def leaderboard (rows : List PredRow) : List (String × Nat) :=
  sortScoreDesc (groupbyUserSum rows)

/-- Modelled from the spec's words, for comparison with `leaderboard`: the
contract prescribes descending score with "ties broken by first-seen order
in the underlying scan (stable sort)"; that is a stable descending sort of
the per-user sums taken in first-seen scan order. -/
def leaderboardSpecOrder (rows : List PredRow) : List (String × Nat) :=
  List.insertionSort (fun a b : String × Nat => b.2 ≤ a.2)
    ((dedupFirst (rows.map (fun r => r.username))).map (fun u => (u, userSum rows u)))

/-- The spec's published three-row example, Bob scanned before Amy. -/
def exBobFirst : List PredRow :=
  [⟨1, "M1", "Bob", "x", 2⟩, ⟨2, "M2", "Amy", "x", 2⟩, ⟨3, "M3", "Cy", "x", 1⟩]

/-- The same totals with Amy scanned before Bob. -/
def exAmyFirst : List PredRow :=
  [⟨1, "M1", "Amy", "x", 2⟩, ⟨2, "M2", "Bob", "x", 2⟩, ⟨3, "M3", "Cy", "x", 1⟩]

/-! ### Verified claims and supporting lemmas -/

/-- C1: in every supervisor iteration whose child exits with a nonzero code,
a lifetime under 10 seconds restarts with `consecutiveErrors` incremented and
a lifetime of at least 10 seconds restarts with `consecutiveErrors` reset
to 0 (first conjunct; the restart budget keeps advancing: the recursive
attempt runs at `restartCount + 1`), and every attempt that begins under the
restart ceiling with `consecutiveErrors ≥ 3` first sleeps the fixed
60-second cooldown and spawns with `consecutiveErrors` reset to 0 at an
unchanged `restartCount` (second conjunct). -/
theorem run_bot_crash_accounting :
    (∀ rc ce (code : Int) (t : Nat) rest, rc < max_restarts → code ≠ 0 →
        run_bot rc ce (ChildOutcome.exited code t :: rest) =
          (if max_consecutive_errors ≤ ce then [SupEvent.cooldown error_cooldown] else [])
            ++ SupEvent.spawn rc (if max_consecutive_errors ≤ ce then 0 else ce)
            :: run_bot (rc + 1)
                (if t < 10 then (if max_consecutive_errors ≤ ce then 0 else ce) + 1 else 0)
                rest) ∧
    (∀ rc ce outs, rc < max_restarts → max_consecutive_errors ≤ ce →
        ∃ tail, run_bot rc ce outs =
          SupEvent.cooldown error_cooldown :: SupEvent.spawn rc 0 :: tail) := by
  constructor
  · intro rc ce code t rest hrc hcode
    have hrc' : ¬ max_restarts ≤ rc := Nat.not_le.mpr hrc
    by_cases hce : max_consecutive_errors ≤ ce <;>
      by_cases ht : t < 10 <;>
        simp [run_bot, hrc', hce, hcode, ht]
  · intro rc ce outs hrc hce
    have hrc' : ¬ max_restarts ≤ rc := Nat.not_le.mpr hrc
    cases outs with
    | nil => exact ⟨[SupEvent.ranOut], by simp [run_bot, hrc', hce]⟩
    | cons o rest =>
      cases o with
      | conflict ok =>
        exact ⟨run_bot (rc + 1) (0 + 1) rest, by simp [run_bot, hrc', hce]⟩
      | exited code t =>
        by_cases hcode : code ≠ 0
        · by_cases ht : t < 10
          · exact ⟨run_bot (rc + 1) (0 + 1) rest, by simp [run_bot, hrc', hce, hcode, ht]⟩
          · exact ⟨run_bot (rc + 1) 0 rest, by simp [run_bot, hrc', hce, hcode, ht]⟩
        · exact ⟨[SupEvent.cleanExit], by simp [run_bot, hrc', hce, hcode]⟩

/-- Witness for C1: a concrete fast crash (exit code 1 after 5 seconds) at
`restartCount = 2`, `consecutiveErrors = 3`. -/
theorem run_bot_crash_accounting_witness :
    run_bot 2 3 [ChildOutcome.exited 1 5] =
      (if max_consecutive_errors ≤ 3 then [SupEvent.cooldown error_cooldown] else [])
        ++ SupEvent.spawn 2 (if max_consecutive_errors ≤ 3 then 0 else 3)
        :: run_bot 3 (if 5 < 10 then (if max_consecutive_errors ≤ 3 then 0 else 3) + 1 else 0) [] :=
  run_bot_crash_accounting.1 2 3 1 5 [] (by decide) (by decide)

/-- C6: once the restart counter has reached the ceiling of 10 the supervisor
emits only the terminal "reached maximum restarts" event and performs no
spawn attempt, whatever sequence of outcomes (conflicts, fast crashes, late
crashes) consumed the budget. -/
theorem run_bot_exhaustion (rc ce : Nat) (outs : List ChildOutcome)
    (h : max_restarts ≤ rc) :
    run_bot rc ce outs = [SupEvent.exhausted] ∧
      ∀ k e, SupEvent.spawn k e ∉ run_bot rc ce outs := by
  have heq : run_bot rc ce outs = [SupEvent.exhausted] := by
    cases outs <;> simp [run_bot, h]
  refine ⟨heq, ?_⟩
  intro k e hmem
  rw [heq] at hmem
  simp at hmem

/-- Witness for C6: the budget is exhausted at `restartCount = 10` with a
pending fast-crash outcome; no spawn happens. -/
theorem run_bot_exhaustion_witness :
    run_bot 10 1 [ChildOutcome.exited 1 2] = [SupEvent.exhausted] ∧
      ∀ k e, SupEvent.spawn k e ∉ run_bot 10 1 [ChildOutcome.exited 1 2] :=
  run_bot_exhaustion 10 1 [ChildOutcome.exited 1 2] (by decide)

/-- C10: every `handle_poll_answer` run that ends in one of the Ignored
outcomes (unknown poll, unknown match, nothing to retract, invalid option
index) issues no write to the Predictions store. -/
theorem ignored_event_no_write (pollMap : List (String × Nat))
    (schedule : List (Nat × MatchInfo)) (preds : List PredRow)
    (pollId username : String) (optionIds : List Nat)
    (h : (handle_poll_answer pollMap schedule preds pollId username
            optionIds).1.isIgnored = true) :
    (handle_poll_answer pollMap schedule preds pollId username optionIds).2
      = none := by
  unfold handle_poll_answer at h ⊢
  cases hpm : List.lookup pollId pollMap with
  | none => simp [hpm]
  | some matchNo =>
    cases hs : List.lookup matchNo schedule with
    | none => simp [hpm, hs]
    | some mi =>
      cases optionIds with
      | nil =>
        by_cases he : preds.isEmpty
        · simp [hpm, hs, he]
        · by_cases ha : preds.any (rowMask matchNo username)
          · simp [hpm, hs, he, ha, VoteResult.isIgnored] at h
          · simp [hpm, hs, he, ha]
      | cons chosen rest =>
        by_cases hlen : (splitTeams mi.teams).length ≤ chosen
        · simp [hpm, hs, hlen]
        · by_cases ha : preds.any (rowMask matchNo username) <;>
            simp [hpm, hs, hlen, ha, VoteResult.isIgnored] at h

/-- Witness for C10: an answer for a poll id absent from the poll map is
ignored and writes nothing. -/
theorem ignored_event_no_write_witness :
    (handle_poll_answer [("p1", 5)] [(5, ⟨"Mumbai vs Chennai", "Wankhede"⟩)]
        [] "p9" "Amy" [0]).2 = none :=
  ignored_event_no_write [("p1", 5)] [(5, ⟨"Mumbai vs Chennai", "Wankhede"⟩)]
    [] "p9" "Amy" [0] (by decide)

/-- C4: a poll answer whose first option index is out of range for the
team list obtained by splitting the match's Teams field on `" vs "` is
ignored as an invalid option and writes nothing — the index is never coerced
to select a team. -/
theorem reconcile_invalid_option_ignored (pollMap : List (String × Nat))
    (schedule : List (Nat × MatchInfo)) (preds : List PredRow)
    (pollId username : String) (chosen : Nat) (rest : List Nat)
    (matchNo : Nat) (mi : MatchInfo)
    (hp : List.lookup pollId pollMap = some matchNo)
    (hs : List.lookup matchNo schedule = some mi)
    (hi : (splitTeams mi.teams).length ≤ chosen) :
    handle_poll_answer pollMap schedule preds pollId username (chosen :: rest)
      = (VoteResult.ignoredInvalidOption, none) := by
  unfold handle_poll_answer
  simp [hp, hs, hi]

/-- Witness for C4: option index 2 against the two-team list of
`"Mumbai vs Chennai"`. -/
theorem reconcile_invalid_option_ignored_witness :
    handle_poll_answer [("p1", 5)] [(5, ⟨"Mumbai vs Chennai", "Wankhede"⟩)]
        [⟨5, "Mumbai vs Chennai", "Amy", "Mumbai", 0⟩] "p1" "Amy" [2]
      = (VoteResult.ignoredInvalidOption, none) :=
  reconcile_invalid_option_ignored [("p1", 5)]
    [(5, ⟨"Mumbai vs Chennai", "Wankhede"⟩)]
    [⟨5, "Mumbai vs Chennai", "Amy", "Mumbai", 0⟩] "p1" "Amy" 2 [] 5
    ⟨"Mumbai vs Chennai", "Wankhede"⟩ (by decide) (by decide) (by decide)

/-- C7: on a poll answer with empty `optionIds`, an existing prediction row
for (match, case-normalized username) is removed from the table entirely
(every surviving row fails the mask) with result `Retracted`; when no such
row exists — in particular when retracting a second time against the table
the first retraction wrote — the result is `Ignored` and no write happens. -/
theorem reconcile_retraction_removes_row (pollMap : List (String × Nat))
    (schedule : List (Nat × MatchInfo)) (preds : List PredRow)
    (pollId username : String) (matchNo : Nat) (mi : MatchInfo)
    (hp : List.lookup pollId pollMap = some matchNo)
    (hs : List.lookup matchNo schedule = some mi) :
    (preds.any (rowMask matchNo username) = true →
        handle_poll_answer pollMap schedule preds pollId username [] =
          (VoteResult.retracted,
            some (preds.filter (fun r => !(rowMask matchNo username r)))) ∧
        (∀ r ∈ preds.filter (fun r => !(rowMask matchNo username r)),
            rowMask matchNo username r = false) ∧
        handle_poll_answer pollMap schedule
            (preds.filter (fun r => !(rowMask matchNo username r)))
            pollId username [] =
          (VoteResult.ignoredNothingToRetract, none)) ∧
    (preds.any (rowMask matchNo username) = false →
        handle_poll_answer pollMap schedule preds pollId username [] =
          (VoteResult.ignoredNothingToRetract, none)) := by
  constructor
  · intro ha
    have hne : preds ≠ [] := by
      intro hnil
      rw [hnil] at ha
      simp at ha
    have he : preds.isEmpty = false := by
      cases preds with
      | nil => exact absurd rfl hne
      | cons a l => simp
    have hsurvivors : ∀ r ∈ preds.filter (fun r => !(rowMask matchNo username r)),
        rowMask matchNo username r = false := by
      intro r hr
      have := List.of_mem_filter hr
      simpa using this
    refine ⟨by unfold handle_poll_answer; simp [hp, hs, he, ha], hsurvivors, ?_⟩
    by_cases he2 : (preds.filter (fun r => !(rowMask matchNo username r))).isEmpty
    · unfold handle_poll_answer
      simp [hp, hs, he2]
    · have ha2 : (preds.filter (fun r => !(rowMask matchNo username r))).any
          (rowMask matchNo username) = false := by
        rw [List.any_eq_false]
        intro r hr
        simp [hsurvivors r hr]
      unfold handle_poll_answer
      simp [hp, hs, he2, ha2]
  · intro ha
    by_cases he : preds.isEmpty
    · unfold handle_poll_answer
      simp [hp, hs, he]
    · unfold handle_poll_answer
      simp [hp, hs, he, ha]

/-- Witness for C7: Amy's row for match 5 is removed on the first empty-option
event and a second retraction is ignored. -/
theorem reconcile_retraction_removes_row_witness :
    ([(⟨5, "Mumbai vs Chennai", "Amy", "Mumbai", 0⟩ : PredRow)].any
        (rowMask 5 "Amy") = true →
      handle_poll_answer [("p1", 5)] [(5, ⟨"Mumbai vs Chennai", "Wankhede"⟩)]
          [⟨5, "Mumbai vs Chennai", "Amy", "Mumbai", 0⟩] "p1" "Amy" [] =
        (VoteResult.retracted,
          some ([⟨5, "Mumbai vs Chennai", "Amy", "Mumbai", 0⟩].filter
            (fun r => !(rowMask 5 "Amy" r)))) ∧
      (∀ r ∈ ([(⟨5, "Mumbai vs Chennai", "Amy", "Mumbai", 0⟩ : PredRow)].filter
          (fun r => !(rowMask 5 "Amy" r))), rowMask 5 "Amy" r = false) ∧
      handle_poll_answer [("p1", 5)] [(5, ⟨"Mumbai vs Chennai", "Wankhede"⟩)]
          ([⟨5, "Mumbai vs Chennai", "Amy", "Mumbai", 0⟩].filter
            (fun r => !(rowMask 5 "Amy" r))) "p1" "Amy" [] =
        (VoteResult.ignoredNothingToRetract, none)) ∧
    ([(⟨5, "Mumbai vs Chennai", "Amy", "Mumbai", 0⟩ : PredRow)].any
        (rowMask 5 "Amy") = false →
      handle_poll_answer [("p1", 5)] [(5, ⟨"Mumbai vs Chennai", "Wankhede"⟩)]
          [⟨5, "Mumbai vs Chennai", "Amy", "Mumbai", 0⟩] "p1" "Amy" [] =
        (VoteResult.ignoredNothingToRetract, none)) :=
  reconcile_retraction_removes_row [("p1", 5)]
    [(5, ⟨"Mumbai vs Chennai", "Wankhede"⟩)]
    [⟨5, "Mumbai vs Chennai", "Amy", "Mumbai", 0⟩] "p1" "Amy" 5
    ⟨"Mumbai vs Chennai", "Wankhede"⟩ (by decide) (by decide)

/-- The update applied to masked rows on a vote change keeps the identity
fields (`MatchNo`, `Username`) of every row unchanged. -/
theorem update_keeps_key (matchNo : Nat) (username team : String) (r : PredRow) :
    ((if rowMask matchNo username r then
        { r with prediction := team, correct := 0 } else r) : PredRow).matchNo
        = r.matchNo ∧
      ((if rowMask matchNo username r then
        { r with prediction := team, correct := 0 } else r) : PredRow).username
        = r.username := by
  split <;> exact ⟨rfl, rfl⟩

/-- C3: reconciliation preserves the at-most-one-row-per-(match,
case-normalized username) invariant of the Predictions table (first
conjunct, covering all of retract, update and insert), and two usernames
differing only in letter case address the same row: `"alice"` voting on a
table holding an `"Alice"` row updates that single row in place (second
conjunct). -/
theorem reconcile_at_most_one_row_per_key :
    (∀ pollMap schedule preds pollId username optionIds,
        atMostOnePerKey preds →
        atMostOnePerKey
          (tableAfter pollMap schedule preds pollId username optionIds)) ∧
    handle_poll_answer [("p1", 1)] [(1, ⟨"A vs B", "V"⟩)]
        [⟨1, "A vs B", "Alice", "A", 0⟩] "p1" "alice" [1] =
      (VoteResult.updated, some [⟨1, "A vs B", "Alice", "B", 0⟩]) := by
  constructor
  · intro pollMap schedule preds pollId username optionIds hinv
    unfold tableAfter handle_poll_answer
    cases hpm : List.lookup pollId pollMap with
    | none => simpa [hpm] using hinv
    | some matchNo =>
      cases hs : List.lookup matchNo schedule with
      | none => simpa [hpm, hs] using hinv
      | some mi =>
        cases optionIds with
        | nil =>
          by_cases he : preds.isEmpty
          · simpa [hpm, hs, he] using hinv
          · by_cases ha : preds.any (rowMask matchNo username)
            · simp only [hpm, hs, he, ha, Bool.false_eq_true, if_false, if_true,
                Option.getD_some]
              exact List.Pairwise.sublist (List.filter_sublist _) hinv
            · simpa [hpm, hs, he, ha] using hinv
        | cons chosen rest =>
          by_cases hlen : (splitTeams mi.teams).length ≤ chosen
          · simpa [hpm, hs, hlen] using hinv
          · by_cases ha : preds.any (rowMask matchNo username)
            · simp only [hpm, hs, hlen, ha, Bool.false_eq_true, if_false, if_true,
                Option.getD_some]
              rw [atMostOnePerKey, List.pairwise_map]
              refine hinv.imp ?_
              intro a b hab hk
              apply hab
              rcases update_keeps_key matchNo username
                (pyStrip ((splitTeams mi.teams).getD chosen "")) a with ⟨ham, hau⟩
              rcases update_keeps_key matchNo username
                (pyStrip ((splitTeams mi.teams).getD chosen "")) b with ⟨hbm, hbu⟩
              rw [ham, hau, hbm, hbu] at hk
              exact hk
            · simp only [hpm, hs, hlen, ha, Bool.false_eq_true, if_false, if_true,
                Option.getD_some]
              rw [atMostOnePerKey, List.pairwise_append]
              refine ⟨hinv, List.pairwise_singleton _ _, ?_⟩
              intro a haa b hb
              simp only [List.mem_singleton] at hb
              subst hb
              intro hk
              have hmask : rowMask matchNo username a = false := by
                have := List.any_eq_false.mp (Bool.not_eq_true _ ▸ ha) a haa
                simpa using this
              rw [rowMask] at hmask
              simp only [Bool.and_eq_false_iff, beq_eq_false_iff_ne] at hmask
              rcases hk with ⟨hk1, hk2⟩
              rcases hmask with hm | hm
              · exact hm hk1
              · exact hm hk2
  · decide

/-- Witness for C3: a two-row table satisfying the invariant (two different
matches voted by Amy) keeps satisfying it after Amy changes her vote on
match 5. -/
theorem reconcile_at_most_one_row_per_key_witness :
    atMostOnePerKey [⟨5, "Mumbai vs Chennai", "Amy", "Mumbai", 0⟩,
        ⟨6, "Delhi vs Punjab", "Amy", "Delhi", 1⟩] ∧
    atMostOnePerKey (tableAfter [("p1", 5)]
      [(5, ⟨"Mumbai vs Chennai", "Wankhede"⟩)]
      [⟨5, "Mumbai vs Chennai", "Amy", "Mumbai", 0⟩,
        ⟨6, "Delhi vs Punjab", "Amy", "Delhi", 1⟩] "p1" "amy" [1]) :=
  ⟨by rw [atMostOnePerKey]; decide,
    reconcile_at_most_one_row_per_key.1 [("p1", 5)]
      [(5, ⟨"Mumbai vs Chennai", "Wankhede"⟩)]
      [⟨5, "Mumbai vs Chennai", "Amy", "Mumbai", 0⟩,
        ⟨6, "Delhi vs Punjab", "Amy", "Delhi", 1⟩] "p1" "amy" [1]
      (by rw [atMostOnePerKey]; decide)⟩

/-- C5: every successful `score_match` run relates the old and new tables
row by row: rows of the scored match get exactly their `Correct` flag
rewritten from the casefolded comparison with the standardized winner, and
every row of any other match is returned with all fields unchanged — even
when its prediction also equals the winner. -/
theorem score_match_frame (schedule : List (Nat × MatchInfo)) (matchNo : Nat)
    (winner : String) (preds : List PredRow) (w : String) (t : List PredRow)
    (h : score_match schedule matchNo winner preds = ScoreResult.scored w t) :
    List.Forall₂ (scoreFrame matchNo w) preds t := by
  unfold score_match at h
  cases hs : List.lookup matchNo schedule with
  | none => rw [hs] at h; exact absurd h (by simp)
  | some mi =>
    rw [hs] at h
    simp only at h
    split at h
    · exact absurd h (by simp)
    · split at h
      · exact absurd h (by simp)
      · split at h
        · exact absurd h (by simp)
        · split at h
          · exact absurd h (by simp)
          · rw [ScoreResult.scored.injEq] at h
            obtain ⟨hw, ht⟩ := h
            subst hw
            subst ht
            rw [List.forall₂_map_right_iff]
            rw [List.forall₂_same]
            intro r _
            constructor
            · intro hne
              have : (r.matchNo == matchNo) = false := by
                simpa using hne
              simp [this]
            · intro heq
              have : (r.matchNo == matchNo) = true := by
                simpa using heq
              simp [this]

/-- Witness for C5: scoring match 5 with winner `"Mumbai"` on a table that
also holds a Mumbai prediction for match 6; the theorem applies to the
computed result. -/
theorem score_match_frame_witness :
    List.Forall₂ (scoreFrame 5 "Mumbai")
      [⟨5, "Mumbai vs Chennai", "Amy", "Mumbai", 0⟩,
        ⟨5, "Mumbai vs Chennai", "Bob", "Chennai", 1⟩,
        ⟨6, "Delhi vs Mumbai", "Cy", "Mumbai", 1⟩]
      [⟨5, "Mumbai vs Chennai", "Amy", "Mumbai", 1⟩,
        ⟨5, "Mumbai vs Chennai", "Bob", "Chennai", 0⟩,
        ⟨6, "Delhi vs Mumbai", "Cy", "Mumbai", 1⟩] :=
  score_match_frame [(5, ⟨"Mumbai vs Chennai", "Wankhede"⟩)] 5 "mumbai"
    [⟨5, "Mumbai vs Chennai", "Amy", "Mumbai", 0⟩,
      ⟨5, "Mumbai vs Chennai", "Bob", "Chennai", 1⟩,
      ⟨6, "Delhi vs Mumbai", "Cy", "Mumbai", 1⟩]
    "Mumbai"
    [⟨5, "Mumbai vs Chennai", "Amy", "Mumbai", 1⟩,
      ⟨5, "Mumbai vs Chennai", "Bob", "Chennai", 0⟩,
      ⟨6, "Delhi vs Mumbai", "Cy", "Mumbai", 1⟩]
    (by decide)

/-- C8: a scheduled match whose Teams field contains a `Qualifier`,
`Eliminator` or `Final` token makes the fired job send only the
informational placeholder message, and the PollMap store is left exactly as
it was — no mapping row is recorded. -/
theorem undecided_match_no_poll_mapping (mi : MatchInfo)
    (h : undecidedMatch mi.teams = true) :
    scheduled_poll_callback mi = PollJobAction.infoPlaceholder ∧
      ∀ pollMap newPollId matchNo,
        pollMapAfter pollMap newPollId matchNo (scheduled_poll_callback mi)
          = pollMap := by
  have hcb : scheduled_poll_callback mi = PollJobAction.infoPlaceholder := by
    unfold scheduled_poll_callback
    simp [h]
  exact ⟨hcb, fun pollMap newPollId matchNo => by rw [hcb]; rfl⟩

/-- Witness for C8: the `"Final"` placeholder match. -/
theorem undecided_match_no_poll_mapping_witness :
    scheduled_poll_callback ⟨"Final", "Ahmedabad"⟩
        = PollJobAction.infoPlaceholder ∧
      ∀ pollMap newPollId matchNo,
        pollMapAfter pollMap newPollId matchNo
          (scheduled_poll_callback ⟨"Final", "Ahmedabad"⟩) = pollMap :=
  undecided_match_no_poll_mapping ⟨"Final", "Ahmedabad"⟩ (by decide)

/-- Counterexample to C9 as stated: with the predictions store identifier
missing (and likewise for the poll-map identifier or the bot credential, none
of which `loadConfig` inspects), module import completes normally — startup
is not a fatal error and the process does not exit non-zero at this point. -/
theorem startup_missing_sheet_id_not_fatal :
    envNoPredictionsId.predictionsSheetId = none ∧
      loadConfig envNoPredictionsId =
        Except.ok { botToken := some "123:abc", groupChatId := 42,
                    predictionsSheetId := none,
                    pollMapSheetId := some "pm-sheet" } :=
  ⟨rfl, rfl⟩

/-- C9 (amended): only the target chat identifier is validated at startup:
a missing or non-integer `GROUP_CHAT_ID` aborts the import with a non-zero
exit, while the bot credential and the two store identifiers are read
unchecked — whatever their presence, import succeeds once `GROUP_CHAT_ID`
parses, storing them possibly as `None`. -/
theorem startup_env_validation :
    (∀ env : Env, env.groupChatId = none → loadConfig env = Except.error 1) ∧
    (∀ env : Env, ∀ s, env.groupChatId = some s → pyInt s = none →
        loadConfig env = Except.error 1) ∧
    (∀ env : Env, ∀ s n, env.groupChatId = some s → pyInt s = some n →
        loadConfig env =
          Except.ok { botToken := env.botToken, groupChatId := n,
                      predictionsSheetId := env.predictionsSheetId,
                      pollMapSheetId := env.pollMapSheetId }) := by
  refine ⟨?_, ?_, ?_⟩
  · intro env h
    simp [loadConfig, h]
  · intro env s h hp
    simp [loadConfig, h, hp]
  · intro env s n h hp
    simp [loadConfig, h, hp]

/-- Witness for C9 (amended): a concrete unset `GROUP_CHAT_ID` is fatal, a
non-numeric one is fatal, and `envNoPredictionsId` imports fine. -/
theorem startup_env_validation_witness :
    loadConfig { botToken := some "t", groupChatId := none,
                 predictionsSheetId := some "a",
                 pollMapSheetId := some "b" }
      = Except.error 1 ∧
    loadConfig { botToken := some "t", groupChatId := some "oops",
                 predictionsSheetId := some "a",
                 pollMapSheetId := some "b" }
      = Except.error 1 ∧
    loadConfig envNoPredictionsId =
      Except.ok { botToken := some "123:abc", groupChatId := 42,
                  predictionsSheetId := none,
                  pollMapSheetId := some "pm-sheet" } :=
  ⟨startup_env_validation.1 _ rfl,
    startup_env_validation.2.1 _ "oops" rfl (by decide),
    startup_env_validation.2.2 envNoPredictionsId "42" 42 rfl (by decide)⟩

/-- Counterexample to C2 as stated: on the same totals with Amy scanned
before Bob, first-seen tie-breaking would put Amy first, but the code puts
Bob first — the tie is not broken by first-seen scan order. -/
theorem leaderboard_tie_not_first_seen :
    leaderboard exAmyFirst = [("Bob", 2), ("Amy", 2), ("Cy", 1)] ∧
      leaderboardSpecOrder exAmyFirst = [("Amy", 2), ("Bob", 2), ("Cy", 1)] ∧
      leaderboard exAmyFirst ≠ leaderboardSpecOrder exAmyFirst :=
  ⟨by decide, by decide, by decide⟩

/-- C2 (amended): for every snapshot the delivered leaderboard is a
descending-by-score arrangement of the per-user summed scores — whatever
ascending argsort `nargsort` produces for the grouped sums (stable or not,
so independently of numpy's tie handling), the handler iterates its
wholesale reversal, which is a permutation of the per-user sums that is
sorted descending by score (first conjunct).  Ties between equal scores are
not broken by first-seen scan order; on the spec's example rows (Bob=2
scanned before Amy=2, Cy=1) the published result `[Bob,2],[Amy,2],[Cy,1]`
does hold (second conjunct, in the small-table regime the example
exercises). -/
theorem leaderboard_order :
    (∀ rows : List PredRow, ∀ asc : List (String × Nat),
        asc.Perm (groupbyUserSum rows) →
        asc.Pairwise (fun a b => a.2 ≤ b.2) →
        asc.reverse.Perm (groupbyUserSum rows) ∧
          asc.reverse.Pairwise (fun a b => b.2 ≤ a.2)) ∧
      leaderboard exBobFirst = [("Bob", 2), ("Amy", 2), ("Cy", 1)] := by
  constructor
  · intro rows asc hperm hsorted
    exact ⟨asc.reverse_perm.trans hperm, List.pairwise_reverse.mpr hsorted⟩
  · decide

/-- Witness for C2 (amended): the concrete ascending arrangement of the
grouped sums of the spec's example rows, with both hypotheses evaluated. -/
theorem leaderboard_order_witness :
    ([("Cy", 1), ("Amy", 2), ("Bob", 2)] : List (String × Nat)).reverse.Perm
        (groupbyUserSum exBobFirst) ∧
      ([("Cy", 1), ("Amy", 2), ("Bob", 2)] : List (String × Nat)).reverse.Pairwise
        (fun a b => b.2 ≤ a.2) :=
  leaderboard_order.1 exBobFirst [("Cy", 1), ("Amy", 2), ("Bob", 2)]
    (by decide) (by decide)
